import Mathlib

/-
Shallow embedding of plot.py, a small interactive 2-D plotting library over
the Tk canvas.  Conventions of the embedding:

- Python floats are modelled as rationals; all the arithmetic on the claim
  paths is +, -, *, /, for which the rational model is exact.
- Fallible Python code is modelled with Option: a result of none models a
  raised Python exception (ZeroDivisionError from a division by zero,
  ValueError from a failed tuple unpacking, IndexError from list indexing).
- A call to one of the Tk canvas primitives (create_line, create_polygon,
  create_oval, create_arc, create_text) is modelled as a Prim value; a full
  render pass yields the list of primitive calls issued, in order.  Style
  keyword arguments (colour, width, fonts, ...) are translated to Tk options
  by a pure dictionary merge in plot.py (Shape.set_args) which no claim
  touches, so the model carries the geometry of each draw call only.
- Plot.draw in plot.py first refreshes self.width and self.height from the
  live winfo geometry of the canvas; the model treats the window size as
  fixed, so the stored width and height are the winfo values and a redraw
  leaves the Plot state unchanged.
- The per-frame animation callback is an arbitrary Python function that
  repopulates the cleared plot and whose truthy return value can request a
  pause; it is modelled as a function from the frame value to the repopulated
  shape list together with that request flag.
- Tk.TkVersion is assumed to be at least 8.6 (the guard on the axis text in
  graph_axes compares against 8.6), so the xtext and ytext branches are
  guarded only by the truthiness of the argument.
-/

namespace PyPlot

/-- Division as Python performs it: a division by zero raises
ZeroDivisionError, modelled by none. -/
def qdiv (a b : ℚ) : Option ℚ :=
  if b = 0 then none else some (a / b)

/-- The x part of the user-to-device map used by every Shape.draw method in
plot.py (for example plot.py line 108): x0 + (x + xoffset) * xscale. -/
def mapX (x0 xscale xoffset x : ℚ) : ℚ :=
  x0 + (x + xoffset) * xscale

/-- The y part of the user-to-device map used by every Shape.draw method in
plot.py (for example plot.py line 108): y0 - (y + yoffset) * yscale. -/
def mapY (y0 yscale yoffset y : ℚ) : ℚ :=
  y0 - (y + yoffset) * yscale

/-- One primitive draw call issued to the Tk canvas, carrying the device
coordinates it receives.  create_line and create_polygon receive a flat
coordinate list; create_oval and create_arc receive a bounding box;
create_text receives an anchor point and the text. -/
inductive Prim where
  | create_line (coords : List ℚ)
  | create_polygon (coords : List ℚ)
  | create_oval (x1 y1 x2 y2 : ℚ)
  | create_arc (x1 y1 x2 y2 : ℚ)
  | create_text (x y : ℚ) (text : String)
  deriving Repr, DecidableEq

/-- The geometric content of the Shape subclasses of plot.py: Line and
Polygon hold a flat coordinate sequence, Circle and Arc hold centre, radius
and squish, Mark holds a point and a pixel size, Label holds a point and the
text. -/
inductive Shape where
  | line (pts : List ℚ)
  | polygon (pts : List ℚ)
  | circle (cx cy radius squish : ℚ)
  | mark (px py size : ℚ)
  | arc (cx cy radius squish : ℚ)
  | label (x y : ℚ) (text : String)
  deriving Repr, DecidableEq

/-- The loop `for i in range(0, len(self.pts), 2): (x, y) = self.pts[i:i+2]`
of Line.draw and Polygon.draw (plot.py lines 106-107 and 132-133): it walks
the coordinate list two at a time; on an odd-length list the final slice has
a single element and the tuple unpacking raises ValueError, modelled by
none. -/
def chunkPairs : List ℚ → Option (List (ℚ × ℚ))
  | [] => some []
  | [_] => none
  | x :: y :: rest => (chunkPairs rest).map fun ps => (x, y) :: ps

/-- Flatten a list of coordinate pairs back into the flat sequence the Shape
constructors of plot.py receive. -/
def flattenPts (ps : List (ℚ × ℚ)) : List ℚ :=
  ps.flatMap fun q => [q.1, q.2]

/-- The draw method of each Shape subclass (plot.py lines 104-109, 130-135,
160-165, 179-184, 211-216, 235-237): map the geometry into device space with
mapX and mapY and issue one canvas primitive.  Mark applies its pixel size in
device space around the mapped point. -/
def Shape.draw : Shape → ℚ → ℚ → ℚ → ℚ → ℚ → ℚ → Option Prim
  | .line pts, x0, y0, xscale, yscale, xoffset, yoffset =>
      (chunkPairs pts).map fun ps =>
        .create_line (ps.flatMap fun q => [mapX x0 xscale xoffset q.1, mapY y0 yscale yoffset q.2])
  | .polygon pts, x0, y0, xscale, yscale, xoffset, yoffset =>
      (chunkPairs pts).map fun ps =>
        .create_polygon (ps.flatMap fun q => [mapX x0 xscale xoffset q.1, mapY y0 yscale yoffset q.2])
  | .circle cx cy radius squish, x0, y0, xscale, yscale, xoffset, yoffset =>
      some (.create_oval
        (mapX x0 xscale xoffset (cx - radius)) (mapY y0 yscale yoffset (cy - radius * squish))
        (mapX x0 xscale xoffset (cx + radius)) (mapY y0 yscale yoffset (cy + radius * squish)))
  | .mark px py size, x0, y0, xscale, yscale, xoffset, yoffset =>
      some (.create_oval
        (mapX x0 xscale xoffset px - size) (mapY y0 yscale yoffset py - size)
        (mapX x0 xscale xoffset px + size) (mapY y0 yscale yoffset py + size))
  | .arc cx cy radius squish, x0, y0, xscale, yscale, xoffset, yoffset =>
      some (.create_arc
        (mapX x0 xscale xoffset (cx - radius)) (mapY y0 yscale yoffset (cy - radius * squish))
        (mapX x0 xscale xoffset (cx + radius)) (mapY y0 yscale yoffset (cy + radius * squish)))
  | .label x y t, x0, y0, xscale, yscale, xoffset, yoffset =>
      some (.create_text (mapX x0 xscale xoffset x) (mapY y0 yscale yoffset y) t)

/-- Well-formedness of a shape for rendering: Line and Polygon need an
even-length coordinate sequence, every other shape always renders. -/
def drawOk : Shape → Bool
  | .line pts => pts.length % 2 == 0
  | .polygon pts => pts.length % 2 == 0
  | _ => true

/-- Effectful map over a list in the Option monad, mirroring a Python for
loop whose body may raise: the first raised exception aborts the loop. -/
def mapMopt (f : α → Option β) : List α → Option (List β)
  | [] => some []
  | a :: rest => (f a).bind fun b => (mapMopt f rest).map fun bs => b :: bs

/-- The state of a Plot object (plot.py lines 255-277 plus the fields set by
click_handler).  frame_iter models the Python iterator over the frame
sequence by the list of frames not yet consumed (none when no animation is
attached); frame_fn models the per-frame callback by the shape list it
installs on the cleared plot together with its pause-request return value. -/
structure Plot where
  width : ℚ := 600
  height : ℚ := 600
  border : ℚ := 20
  xscale : ℚ := 1
  yscale : ℚ := 1
  xoffset : ℚ := 0
  yoffset : ℚ := 0
  objects : List Shape := []
  pan : ℚ := 4
  frame_iter : Option (List ℚ) := none
  frame_fn : ℚ → List Shape × Bool := fun _ => ([], false)
  frame_delay : Option ℚ := none
  playing : ℕ := 0
  move_x : ℚ := 0
  move_y : ℚ := 0
  delta_x : ℚ := 0
  delta_y : ℚ := 0

attribute [ext] Plot

/-- Plot.add (plot.py lines 280-281): append an object to the shape list. -/
def Plot.add (p : Plot) (s : Shape) : Plot :=
  { p with objects := p.objects ++ [s] }

/-- Plot.clear (plot.py lines 284-285): remove all objects. -/
def Plot.clear (p : Plot) : Plot :=
  { p with objects := [] }

/-- Plot.animate (plot.py lines 288-291): attach an animation, replacing any
existing one. -/
def Plot.animate (p : Plot) (frames : List ℚ) (fn : ℚ → List Shape × Bool) (delay : ℚ) : Plot :=
  { p with frame_iter := some frames, frame_fn := fn, frame_delay := some delay }

/-- Plot.next_frame without auto-continue (plot.py lines 294-310 with the
default play=0, so the play branches are dead): if no iterator is attached or
the iterator is exhausted, return immediately; otherwise consume one frame,
clear the plot, invoke the callback to repopulate it, and redraw.  The second
component records the frame value the callback was invoked on, none when the
call was a no-op. -/
def Plot.next_frame (p : Plot) : Plot × Option ℚ :=
  match p.frame_iter with
  | none => (p, none)
  | some [] => (p, none)
  | some (t :: rest) =>
      let cleared := { p with frame_iter := some rest, objects := [] }
      let r := cleared.frame_fn t
      ({ cleared with objects := r.1 }, some t)

/-- Iterate next_frame n times, collecting the frame values the callback was
invoked on, in order. -/
def Plot.run_frames (p : Plot) : ℕ → Plot × List ℚ
  | 0 => (p, [])
  | n + 1 =>
      let s := p.next_frame
      let r := s.1.run_frames n
      (r.1, s.2.toList ++ r.2)

/-- Plot.draw (plot.py lines 366-375): clear the canvas and render every
object in insertion order, passing the device origin (border, height-border)
and the current transform to each draw method.  The result is the list of
primitive calls issued; none models the pass aborting with a raised
exception (no primitive is issued for the failing shape). -/
def Plot.draw (p : Plot) : Option (List Prim) :=
  mapMopt
    (fun s => Shape.draw s p.border (p.height - p.border) p.xscale p.yscale p.xoffset p.yoffset)
    p.objects

/-- The device x coordinate a user x coordinate is mapped to by the draw pass
of a given plot (origin x is the border, plot.py line 372). -/
def Plot.deviceX (p : Plot) (x : ℚ) : ℚ :=
  mapX p.border p.xscale p.xoffset x

/-- The device y coordinate a user y coordinate is mapped to by the draw pass
of a given plot (origin y is height - border, plot.py line 372). -/
def Plot.deviceY (p : Plot) (y : ℚ) : ℚ :=
  mapY (p.height - p.border) p.yscale p.yoffset y

/-- Plot.zoom_minus (plot.py lines 421-426): shift the offsets by half the
drawable extent over the current scale, then halve both scales. -/
def Plot.zoom_minus (p : Plot) : Option Plot :=
  (qdiv (p.width - 2 * p.border) (2 * p.xscale)).bind fun dx =>
  (qdiv (p.height - 2 * p.border) (2 * p.yscale)).map fun dy =>
  { p with xoffset := p.xoffset + dx, yoffset := p.yoffset + dy,
           xscale := p.xscale / 2, yscale := p.yscale / 2 }

/-- Plot.zoom_plus (plot.py lines 428-433): double both scales, then shift
the offsets by half the drawable extent over the doubled scale. -/
def Plot.zoom_plus (p : Plot) : Option Plot :=
  (qdiv (p.width - 2 * p.border) (2 * (p.xscale * 2))).bind fun dx =>
  (qdiv (p.height - 2 * p.border) (2 * (p.yscale * 2))).map fun dy =>
  { p with xscale := p.xscale * 2, yscale := p.yscale * 2,
           xoffset := p.xoffset - dx, yoffset := p.yoffset - dy }

/-- Plot.zoom_x_minus (plot.py lines 435-438). -/
def Plot.zoom_x_minus (p : Plot) : Option Plot :=
  (qdiv (p.width - 2 * p.border) (2 * p.xscale)).map fun dx =>
  { p with xoffset := p.xoffset + dx, xscale := p.xscale / 2 }

/-- Plot.zoom_x_plus (plot.py lines 440-443). -/
def Plot.zoom_x_plus (p : Plot) : Option Plot :=
  (qdiv (p.width - 2 * p.border) (2 * (p.xscale * 2))).map fun dx =>
  { p with xscale := p.xscale * 2, xoffset := p.xoffset - dx }

/-- Plot.zoom_y_minus (plot.py lines 445-448). -/
def Plot.zoom_y_minus (p : Plot) : Option Plot :=
  (qdiv (p.height - 2 * p.border) (2 * p.yscale)).map fun dy =>
  { p with yoffset := p.yoffset + dy, yscale := p.yscale / 2 }

/-- Plot.zoom_y_plus (plot.py lines 450-453). -/
def Plot.zoom_y_plus (p : Plot) : Option Plot :=
  (qdiv (p.height - 2 * p.border) (2 * (p.yscale * 2))).map fun dy =>
  { p with yscale := p.yscale * 2, yoffset := p.yoffset - dy }

/-- Plot.pan_up_handler (plot.py lines 455-457). -/
def Plot.pan_up_handler (p : Plot) : Plot :=
  { p with yoffset := p.yoffset + p.pan }

/-- Plot.pan_down_handler (plot.py lines 459-461). -/
def Plot.pan_down_handler (p : Plot) : Plot :=
  { p with yoffset := p.yoffset - p.pan }

/-- Plot.pan_right_handler (plot.py lines 463-465). -/
def Plot.pan_right_handler (p : Plot) : Plot :=
  { p with xoffset := p.xoffset + p.pan }

/-- Plot.pan_left_handler (plot.py lines 467-469). -/
def Plot.pan_left_handler (p : Plot) : Plot :=
  { p with xoffset := p.xoffset - p.pan }

/-- Plot.click_handler (plot.py lines 402-404): capture the pointer-down
position and reset the accumulated drag delta. -/
def Plot.click_handler (p : Plot) (ex ey : ℚ) : Plot :=
  { p with move_x := ex, move_y := ey, delta_x := 0, delta_y := 0 }

/-- Plot.drag_handler (plot.py lines 406-414): if an animation is playing,
pause it; accumulate the motion delta and update the reference position.
The canvas.move call translates the already-rendered primitives on screen (a
direct-manipulation optimisation) and touches no Plot state. -/
def Plot.drag_handler (p : Plot) (ex ey : ℚ) : Plot :=
  let q := if p.playing ≠ 0 then { p with playing := 0 } else p
  { q with delta_x := q.delta_x + (ex - q.move_x),
           delta_y := q.delta_y + (ey - q.move_y),
           move_x := ex, move_y := ey }

/-- Fold drag_handler over a list of motion-event positions. -/
def Plot.dragAll (p : Plot) (ms : List (ℚ × ℚ)) : Plot :=
  ms.foldl (fun s e => s.drag_handler e.1 e.2) p

/-- Plot.release_handler (plot.py lines 416-419): commit the accumulated drag
delta into the offsets and redraw. -/
def Plot.release_handler (p : Plot) : Option Plot :=
  (qdiv p.delta_x p.xscale).bind fun ax =>
  (qdiv p.delta_y p.yscale).map fun ay =>
  { p with xoffset := p.xoffset + ax, yoffset := p.yoffset - ay }

/-- Plot.double_click_handler (plot.py lines 471-482): recentre the view on
the click point, then zoom in (button 1), zoom out (button 2), or just
redraw. -/
def Plot.double_click_handler (p : Plot) (ex ey : ℚ) (button : ℕ) : Option Plot :=
  (qdiv (p.width / 2 - ex) p.xscale).bind fun ddx =>
  (qdiv (ey - p.height / 2) p.yscale).bind fun ddy =>
  let q := { p with xoffset := p.xoffset + ddx, yoffset := p.yoffset + ddy }
  if button = 1 then q.zoom_plus else if button = 2 then q.zoom_minus else some q

/-- Plot.double_click2_handler (plot.py lines 484-485). -/
def Plot.double_click2_handler (p : Plot) (ex ey : ℚ) : Option Plot :=
  p.double_click_handler ex ey 2

/-- The Python idiom `xtick or tick` (plot.py lines 535 and 540): use the
override unless it is falsy (absent or zero). -/
def orD : Option ℚ → ℚ → ℚ
  | some v, t => if v = 0 then t else v
  | none, t => t

/-- The x-axis label loop of Plot.graph_axes (plot.py lines 545-550): an
absent or empty label list is falsy and skipped; otherwise each label i is
placed at (xmin + (xmax - xmin) * i / (len - 1), ymin - 10 / yscale).  With a
single label the spacing divisor is zero and Python raises
ZeroDivisionError; a zero yscale likewise raises. -/
def xlabelShapes (xmin xmax ymin yscale : ℚ) : Option (List String) → Option (List Shape)
  | none => some []
  | some ls =>
      if ls.isEmpty then some []
      else
        mapMopt (fun it =>
          (qdiv ((xmax - xmin) * (it.1 : ℚ)) ((ls.length : ℚ) - 1)).bind fun x =>
          (qdiv 10 yscale).map fun d =>
          Shape.label (xmin + x) (ymin - d) it.2) ls.enum

/-- The y-axis label loop of Plot.graph_axes (plot.py lines 553-558): each
label i is placed at (xmin - 10 / xscale, ymin + (ymax - ymin) * i / (len - 1)),
with the same failure modes as the x-axis loop. -/
def ylabelShapes (xmin ymin ymax xscale : ℚ) : Option (List String) → Option (List Shape)
  | none => some []
  | some ls =>
      if ls.isEmpty then some []
      else
        mapMopt (fun it =>
          (qdiv ((ymax - ymin) * (it.1 : ℚ)) ((ls.length : ℚ) - 1)).bind fun y =>
          (qdiv 10 xscale).map fun d =>
          Shape.label (xmin - d) (ymin + y) it.2) ls.enum

/-- The x-axis text of Plot.graph_axes (plot.py lines 561-562), with
Tk.TkVersion assumed at least 8.6: a falsy text is skipped, otherwise one
label with a rightward arrow appended is placed at (xmin, ymin - 50/yscale). -/
def xtextShapes (xmin ymin yscale : ℚ) : Option String → Option (List Shape)
  | none => some []
  | some t =>
      if t.isEmpty then some []
      else (qdiv 50 yscale).map fun d => [Shape.label xmin (ymin - d) (t ++ " →")]

/-- The y-axis text of Plot.graph_axes (plot.py lines 565-566). -/
def ytextShapes (xmin ymin xscale : ℚ) : Option String → Option (List Shape)
  | none => some []
  | some t =>
      if t.isEmpty then some []
      else (qdiv 50 xscale).map fun d => [Shape.label (xmin - d) ymin (t ++ " →")]

/-- Plot.graph_axes (plot.py lines 525-566): read the axis extremes and the
second tick of each axis (IndexError, modelled by none, when an axis has
fewer than two ticks), append one vertical grid line per x tick and one
horizontal grid line per y tick, then the optional axis labels and axis
text.  Python appends the grid lines to the live shape list before a later
failure can abort the call; the model returns the updated plot only when the
whole call succeeds, which is all the claims about graph_axes refer to. -/
def Plot.graph_axes (p : Plot) (xaxis yaxis : List ℚ)
    (xlabels ylabels : Option (List String) := none)
    (xtext ytext : Option String := none)
    (tick : ℚ := 1/5) (xtick ytick : Option ℚ := none) : Option Plot :=
  xaxis.head?.bind fun xmin =>
  xaxis.getLast?.bind fun xmax =>
  yaxis.head?.bind fun ymin =>
  yaxis.getLast?.bind fun ymax =>
  (xaxis.get? 1).bind fun xa1 =>
  let xt := (xa1 - xmin) * orD xtick tick
  let vlines := xaxis.map fun i => Shape.line [i, ymin - xt, i, ymax]
  (yaxis.get? 1).bind fun ya1 =>
  let yt := (ya1 - ymin) * orD ytick tick
  let hlines := yaxis.map fun i => Shape.line [xmin - yt, i, xmax, i]
  (xlabelShapes xmin xmax ymin p.yscale xlabels).bind fun xls =>
  (ylabelShapes xmin ymin ymax p.xscale ylabels).bind fun yls =>
  (xtextShapes xmin ymin p.yscale xtext).bind fun xts =>
  (ytextShapes xmin ymin p.xscale ytext).map fun yts =>
  { p with objects := p.objects ++ vlines ++ hlines ++ xls ++ yls ++ xts ++ yts }

/-- A plot with the constructor defaults of plot.py (600 by 600 window,
border 20, unit scales, zero offsets). -/
def samplePlot : Plot := {}

/-- A default plot holding a single text label, used to instantiate the
render theorems. -/
def labelPlot : Plot := Plot.add samplePlot (Shape.label 1 2 "a")

/- Helper lemmas about the coordinate chunking loop and the effectful list
map. -/

theorem chunkPairs_flattenPts : ∀ ps : List (ℚ × ℚ), chunkPairs (flattenPts ps) = some ps
  | [] => rfl
  | q :: rest => by
      have h : flattenPts (q :: rest) = q.1 :: q.2 :: flattenPts rest := rfl
      rw [h]
      simp only [chunkPairs]
      rw [chunkPairs_flattenPts rest]
      rfl

theorem chunkPairs_none_of_odd : ∀ pts : List ℚ, pts.length % 2 = 1 → chunkPairs pts = none
  | [], h => by simp at h
  | [_], _ => rfl
  | _ :: _ :: rest, h => by
      have hr : rest.length % 2 = 1 := by simp [List.length_cons] at h; omega
      simp [chunkPairs, chunkPairs_none_of_odd rest hr]

theorem chunkPairs_isSome_of_even :
    ∀ pts : List ℚ, pts.length % 2 = 0 → (chunkPairs pts).isSome = true
  | [], _ => rfl
  | [_], h => by simp at h
  | _ :: _ :: rest, h => by
      have hr : rest.length % 2 = 0 := by simp [List.length_cons] at h; omega
      obtain ⟨ps, hps⟩ := Option.isSome_iff_exists.mp (chunkPairs_isSome_of_even rest hr)
      simp [chunkPairs, hps]

theorem mapMopt_some {α β : Type} (f : α → Option β) :
    ∀ l : List α, (∀ a ∈ l, (f a).isSome = true) →
      ∃ r, mapMopt f l = some r ∧ r.length = l.length
  | [], _ => ⟨[], rfl, rfl⟩
  | a :: rest, h => by
      obtain ⟨b, hb⟩ := Option.isSome_iff_exists.mp (h a (by simp))
      obtain ⟨r, hr, hlen⟩ := mapMopt_some f rest (fun x hx => h x (by simp [hx]))
      exact ⟨b :: r, by simp [mapMopt, hb, hr], by simp [hlen]⟩

theorem mapMopt_get? {α β : Type} (f : α → Option β) :
    ∀ (l : List α) (r : List β), mapMopt f l = some r →
      ∀ (i : ℕ) (a : α), l[i]? = some a → ∃ b, r[i]? = some b ∧ f a = some b
  | [], _, _, _, _, ha => by simp at ha
  | a :: rest, r, hmap, i, x, hx => by
      cases hfa : f a with
      | none => rw [mapMopt, hfa] at hmap; simp at hmap
      | some b =>
        cases hrest : mapMopt f rest with
        | none => rw [mapMopt, hfa, hrest] at hmap; simp at hmap
        | some rs =>
          rw [mapMopt, hfa, hrest] at hmap
          simp at hmap
          cases i with
          | zero =>
              simp at hx
              subst hx
              exact ⟨b, by simp [← hmap], hfa⟩
          | succ n =>
              simp at hx
              obtain ⟨c, hc, hfc⟩ := mapMopt_get? f rest rs hrest n x hx
              exact ⟨c, by simp [← hmap, hc], hfc⟩

theorem mapMopt_eq_map {α β : Type} (f : α → Option β) (g : α → β) :
    ∀ l : List α, (∀ a ∈ l, f a = some (g a)) → mapMopt f l = some (l.map g)
  | [], _ => rfl
  | a :: rest, h => by
      simp [mapMopt, h a (by simp), mapMopt_eq_map f g rest (fun x hx => h x (by simp [hx]))]

/-- Claim C1: for every shape and every transform state (xscale, yscale,
xoffset, yoffset) and device origin (x0, y0), the render step maps each
user-space point (x, y) to the device point
(x0 + (x + xoffset) * xscale, y0 - (y + yoffset) * yscale) — X uses addition
and Y is flipped — and the draw pass of the Plot supplies the origin
(border, height - border) and its own transform to every shape it renders. -/
theorem render_transform_formula :
    (∀ x0 y0 sx sy ox oy : ℚ, ∀ ps : List (ℚ × ℚ),
      Shape.draw (.line (flattenPts ps)) x0 y0 sx sy ox oy =
        some (.create_line (ps.flatMap fun q => [x0 + (q.1 + ox) * sx, y0 - (q.2 + oy) * sy])))
  ∧ (∀ x0 y0 sx sy ox oy : ℚ, ∀ ps : List (ℚ × ℚ),
      Shape.draw (.polygon (flattenPts ps)) x0 y0 sx sy ox oy =
        some (.create_polygon (ps.flatMap fun q => [x0 + (q.1 + ox) * sx, y0 - (q.2 + oy) * sy])))
  ∧ (∀ x0 y0 sx sy ox oy cx cy r sq : ℚ,
      Shape.draw (.circle cx cy r sq) x0 y0 sx sy ox oy =
        some (.create_oval (x0 + (cx - r + ox) * sx) (y0 - (cy - r * sq + oy) * sy)
          (x0 + (cx + r + ox) * sx) (y0 - (cy + r * sq + oy) * sy)))
  ∧ (∀ x0 y0 sx sy ox oy px py size : ℚ,
      Shape.draw (.mark px py size) x0 y0 sx sy ox oy =
        some (.create_oval (x0 + (px + ox) * sx - size) (y0 - (py + oy) * sy - size)
          (x0 + (px + ox) * sx + size) (y0 - (py + oy) * sy + size)))
  ∧ (∀ x0 y0 sx sy ox oy cx cy r sq : ℚ,
      Shape.draw (.arc cx cy r sq) x0 y0 sx sy ox oy =
        some (.create_arc (x0 + (cx - r + ox) * sx) (y0 - (cy - r * sq + oy) * sy)
          (x0 + (cx + r + ox) * sx) (y0 - (cy + r * sq + oy) * sy)))
  ∧ (∀ x0 y0 sx sy ox oy px py : ℚ, ∀ t : String,
      Shape.draw (.label px py t) x0 y0 sx sy ox oy =
        some (.create_text (x0 + (px + ox) * sx) (y0 - (py + oy) * sy) t))
  ∧ (∀ (p : Plot) (i : ℕ) (s : Shape), p.objects[i]? = some s →
      ∀ prims, Plot.draw p = some prims →
      ∃ pr, prims[i]? = some pr ∧
        Shape.draw s p.border (p.height - p.border) p.xscale p.yscale p.xoffset p.yoffset
          = some pr) := by
  refine ⟨?_, ?_, ?_, ?_, ?_, ?_, ?_⟩
  · intro x0 y0 sx sy ox oy ps
    simp [Shape.draw, chunkPairs_flattenPts, mapX, mapY]
  · intro x0 y0 sx sy ox oy ps
    simp [Shape.draw, chunkPairs_flattenPts, mapX, mapY]
  · intro x0 y0 sx sy ox oy cx cy r sq
    simp [Shape.draw, mapX, mapY]
  · intro x0 y0 sx sy ox oy px py size
    simp [Shape.draw, mapX, mapY]
  · intro x0 y0 sx sy ox oy cx cy r sq
    simp [Shape.draw, mapX, mapY]
  · intro x0 y0 sx sy ox oy px py t
    simp [Shape.draw, mapX, mapY]
  · intro p i s hs prims hp
    exact mapMopt_get? _ p.objects prims hp i s hs

/-- Witness for the hypothesis-bearing part of the C1 theorem, at a default
plot holding one label. -/
theorem render_transform_formula_witness :
    labelPlot.objects[0]? = some (Shape.label 1 2 "a") ∧
    Plot.draw labelPlot = some [Prim.create_text 21 578 "a"] ∧
    ∃ pr, ([Prim.create_text 21 578 "a"] : List Prim)[0]? = some pr ∧
      Shape.draw (Shape.label 1 2 "a") labelPlot.border (labelPlot.height - labelPlot.border)
        labelPlot.xscale labelPlot.yscale labelPlot.xoffset labelPlot.yoffset = some pr := by
  have hobj : labelPlot.objects[0]? = some (Shape.label 1 2 "a") := rfl
  have hdraw : Plot.draw labelPlot = some [Prim.create_text 21 578 "a"] := by
    norm_num [Plot.draw, labelPlot, samplePlot, Plot.add, mapMopt, Shape.draw, mapX, mapY]
  exact ⟨hobj, hdraw,
    render_transform_formula.2.2.2.2.2.2 labelPlot 0 (Shape.label 1 2 "a") hobj
      [Prim.create_text 21 578 "a"] hdraw⟩

/-- Claim C2: for every transform state with nonzero scales and every window
width, height and border, the zoom-in key handler immediately followed by the
zoom-out key handler restores the whole plot state exactly: both scales and
both offsets return to their original values (the rational model is exact, so
the restoration is within any floating-point tolerance). -/
theorem zoom_in_out_roundtrip (p : Plot) (hx : p.xscale ≠ 0) (hy : p.yscale ≠ 0) :
    (Plot.zoom_plus p).bind Plot.zoom_minus = some p := by
  simp [Plot.zoom_plus, Plot.zoom_minus, qdiv, hx, hy]

/-- Witness for the C2 theorem at the default plot. -/
theorem zoom_in_out_roundtrip_witness :
    samplePlot.xscale ≠ 0 ∧ samplePlot.yscale ≠ 0 ∧
    (Plot.zoom_plus samplePlot).bind Plot.zoom_minus = some samplePlot :=
  ⟨by norm_num [samplePlot], by norm_num [samplePlot],
    zoom_in_out_roundtrip samplePlot (by norm_num [samplePlot]) (by norm_num [samplePlot])⟩

/-- Counterexample to claim C7 as stated: rendering a Line (or Polygon) built
from an odd-length coordinate sequence does report an error.  The final slice
pts[i:i+2] has a single element and the tuple unpacking
`(x, y) = self.pts[i:i+2]` raises ValueError (modelled by none) before any
primitive is issued, rather than producing truncated geometry. -/
theorem odd_points_no_error_counterexample :
    Shape.draw (Shape.line [0, 0, 1]) 0 0 1 1 0 0 = none ∧
    Shape.draw (Shape.polygon [0, 0, 1]) 0 0 1 1 0 0 = none := by
  constructor <;> rfl

/-- Claim C7 amended: for every Line or Polygon constructed from a coordinate
sequence of odd length, rendering the shape raises an error (a ValueError
from unpacking the trailing one-element slice) and issues no primitive; the
malformed tail is not silently truncated. -/
theorem odd_points_draw_error (pts : List ℚ) (h : pts.length % 2 = 1)
    (x0 y0 sx sy ox oy : ℚ) :
    Shape.draw (.line pts) x0 y0 sx sy ox oy = none ∧
    Shape.draw (.polygon pts) x0 y0 sx sy ox oy = none := by
  simp [Shape.draw, chunkPairs_none_of_odd pts h]

/-- Witness for the amended C7 theorem. -/
theorem odd_points_draw_error_witness :
    ([0, 0, 1] : List ℚ).length % 2 = 1 ∧
    (Shape.draw (.line [0, 0, 1]) 3 4 5 6 7 8 = none ∧
     Shape.draw (.polygon [0, 0, 1]) 3 4 5 6 7 8 = none) :=
  ⟨by decide, odd_points_draw_error [0, 0, 1] (by decide) 3 4 5 6 7 8⟩

/-- Claim C3: for every transform state with nonzero scales, the zoom-in
handler multiplies xscale and yscale by 2 and the zoom-out handler divides
them by 2, and each adjusts the offsets so that the user-space point mapped
to the centre of the visible window (width / 2, height / 2) before the zoom
is again mapped to the centre after the zoom. -/
theorem zoom_scales_and_centre (p : Plot) (ux uy : ℚ)
    (hx : p.xscale ≠ 0) (hy : p.yscale ≠ 0)
    (hcx : p.deviceX ux = p.width / 2) (hcy : p.deviceY uy = p.height / 2) :
    ∃ pi po, Plot.zoom_plus p = some pi ∧ Plot.zoom_minus p = some po ∧
      pi.xscale = 2 * p.xscale ∧ pi.yscale = 2 * p.yscale ∧
      po.xscale = p.xscale / 2 ∧ po.yscale = p.yscale / 2 ∧
      pi.deviceX ux = p.width / 2 ∧ pi.deviceY uy = p.height / 2 ∧
      po.deviceX ux = p.width / 2 ∧ po.deviceY uy = p.height / 2 := by
  simp only [Plot.deviceX, Plot.deviceY, mapX, mapY] at hcx hcy
  have hmulx : (p.width - 2 * p.border) / (2 * (p.xscale * 2)) * (p.xscale * 2) =
      (p.width - 2 * p.border) / 2 := by field_simp; ring
  have hmuly : (p.height - 2 * p.border) / (2 * (p.yscale * 2)) * (p.yscale * 2) =
      (p.height - 2 * p.border) / 2 := by field_simp; ring
  have hmulx2 : (p.width - 2 * p.border) / (2 * p.xscale) * (p.xscale / 2) =
      (p.width - 2 * p.border) / 4 := by field_simp; ring
  have hmuly2 : (p.height - 2 * p.border) / (2 * p.yscale) * (p.yscale / 2) =
      (p.height - 2 * p.border) / 4 := by field_simp; ring
  refine ⟨{ p with xscale := p.xscale * 2, yscale := p.yscale * 2,
                   xoffset := p.xoffset - (p.width - 2 * p.border) / (2 * (p.xscale * 2)),
                   yoffset := p.yoffset - (p.height - 2 * p.border) / (2 * (p.yscale * 2)) },
    { p with xoffset := p.xoffset + (p.width - 2 * p.border) / (2 * p.xscale),
             yoffset := p.yoffset + (p.height - 2 * p.border) / (2 * p.yscale),
             xscale := p.xscale / 2, yscale := p.yscale / 2 },
    by simp [Plot.zoom_plus, qdiv, hx, hy],
    by simp [Plot.zoom_minus, qdiv, hx, hy],
    by show p.xscale * 2 = 2 * p.xscale; ring,
    by show p.yscale * 2 = 2 * p.yscale; ring,
    rfl, rfl, ?_, ?_, ?_, ?_⟩
  · show p.border +
        (ux + (p.xoffset - (p.width - 2 * p.border) / (2 * (p.xscale * 2)))) * (p.xscale * 2) =
        p.width / 2
    linear_combination 2 * hcx - hmulx
  · show p.height - p.border -
        (uy + (p.yoffset - (p.height - 2 * p.border) / (2 * (p.yscale * 2)))) * (p.yscale * 2) =
        p.height / 2
    linear_combination 2 * hcy + hmuly
  · show p.border +
        (ux + (p.xoffset + (p.width - 2 * p.border) / (2 * p.xscale))) * (p.xscale / 2) =
        p.width / 2
    linear_combination (1 / 2 : ℚ) * hcx + hmulx2
  · show p.height - p.border -
        (uy + (p.yoffset + (p.height - 2 * p.border) / (2 * p.yscale))) * (p.yscale / 2) =
        p.height / 2
    linear_combination (1 / 2 : ℚ) * hcy - hmuly2

/-- Witness for the C3 theorem: at the default plot the user point (280, 280)
sits at the window centre (300, 300). -/
theorem zoom_scales_and_centre_witness :
    samplePlot.xscale ≠ 0 ∧ samplePlot.yscale ≠ 0 ∧
    Plot.deviceX samplePlot 280 = samplePlot.width / 2 ∧
    Plot.deviceY samplePlot 280 = samplePlot.height / 2 ∧
    (∃ pi po, Plot.zoom_plus samplePlot = some pi ∧ Plot.zoom_minus samplePlot = some po ∧
      pi.xscale = 2 * samplePlot.xscale ∧ pi.yscale = 2 * samplePlot.yscale ∧
      po.xscale = samplePlot.xscale / 2 ∧ po.yscale = samplePlot.yscale / 2 ∧
      pi.deviceX 280 = samplePlot.width / 2 ∧ pi.deviceY 280 = samplePlot.height / 2 ∧
      po.deviceX 280 = samplePlot.width / 2 ∧ po.deviceY 280 = samplePlot.height / 2) :=
  ⟨by norm_num [samplePlot], by norm_num [samplePlot],
   by norm_num [Plot.deviceX, mapX, samplePlot],
   by norm_num [Plot.deviceY, mapY, samplePlot],
   zoom_scales_and_centre samplePlot 280 280
     (by norm_num [samplePlot]) (by norm_num [samplePlot])
     (by norm_num [Plot.deviceX, mapX, samplePlot])
     (by norm_num [Plot.deviceY, mapY, samplePlot])⟩

/-- Stepping an animation consumes the attached frame list one frame per
call, returning each frame value in order, and leaves an exhausted iterator
in place. -/
theorem run_frames_of_iter :
    ∀ (l : List ℚ) (p : Plot), p.frame_iter = some l →
      (p.run_frames l.length).2 = l ∧ ((p.run_frames l.length).1).frame_iter = some [] := by
  intro l
  induction l with
  | nil => exact fun p h => ⟨rfl, h⟩
  | cons t rest ih =>
      intro p h
      have hnext : (p.next_frame).2 = some t ∧ ((p.next_frame).1).frame_iter = some rest := by
        simp [Plot.next_frame, h]
      constructor
      · simp only [Plot.run_frames, List.length_cons]
        rw [hnext.1]
        simp [(ih _ hnext.2).1]
      · simp only [Plot.run_frames, List.length_cons]
        exact (ih _ hnext.2).2

/-- Claim C5: for every finite frame sequence of length K attached via
animate, calling next_frame (without auto-continue) K times invokes the
per-frame callback exactly K times, once per frame value in sequence order,
and a (K+1)th call is a no-op: it raises no error, invokes no callback, and
returns the plot state (shape list, transform and playing flag included)
unchanged. -/
theorem animation_steps (p : Plot) (frames : List ℚ) (fn : ℚ → List Shape × Bool) (delay : ℚ) :
    ((Plot.animate p frames fn delay).run_frames frames.length).2 = frames ∧
    Plot.next_frame ((Plot.animate p frames fn delay).run_frames frames.length).1 =
      (((Plot.animate p frames fn delay).run_frames frames.length).1, none) := by
  have h := run_frames_of_iter frames (Plot.animate p frames fn delay) rfl
  refine ⟨h.1, ?_⟩
  simp [Plot.next_frame, h.2]

/-- Field-level description of one drag motion event: it accumulates the
delta, moves the reference point, and touches no other transform state. -/
theorem drag_handler_fields (p : Plot) (ex ey : ℚ) :
    (p.drag_handler ex ey).delta_x = p.delta_x + (ex - p.move_x) ∧
    (p.drag_handler ex ey).delta_y = p.delta_y + (ey - p.move_y) ∧
    (p.drag_handler ex ey).move_x = ex ∧ (p.drag_handler ex ey).move_y = ey ∧
    (p.drag_handler ex ey).xoffset = p.xoffset ∧ (p.drag_handler ex ey).yoffset = p.yoffset ∧
    (p.drag_handler ex ey).xscale = p.xscale ∧ (p.drag_handler ex ey).yscale = p.yscale ∧
    (p.drag_handler ex ey).width = p.width ∧ (p.drag_handler ex ey).height = p.height ∧
    (p.drag_handler ex ey).border = p.border := by
  unfold Plot.drag_handler
  split <;> simp

/-- Folding any sequence of motion events accumulates exactly the telescoped
delta from the initial reference point to the final event position, and
leaves the transform untouched. -/
theorem dragAll_fields : ∀ (ms : List (ℚ × ℚ)) (p : Plot),
    (p.dragAll ms).delta_x = p.delta_x + ((ms.getLastD (p.move_x, p.move_y)).1 - p.move_x) ∧
    (p.dragAll ms).delta_y = p.delta_y + ((ms.getLastD (p.move_x, p.move_y)).2 - p.move_y) ∧
    (p.dragAll ms).xoffset = p.xoffset ∧ (p.dragAll ms).yoffset = p.yoffset ∧
    (p.dragAll ms).xscale = p.xscale ∧ (p.dragAll ms).yscale = p.yscale ∧
    (p.dragAll ms).width = p.width ∧ (p.dragAll ms).height = p.height ∧
    (p.dragAll ms).border = p.border
  | [], p => by simp [Plot.dragAll]
  | e :: rest, p => by
      have hrw : Plot.dragAll p (e :: rest) = Plot.dragAll (p.drag_handler e.1 e.2) rest := by
        simp [Plot.dragAll]
      obtain ⟨h1, h2, h3, h4, h5, h6, h7, h8, h9⟩ := dragAll_fields rest (p.drag_handler e.1 e.2)
      obtain ⟨d1, d2, d3, d4, d5, d6, d7, d8, d9, d10, d11⟩ := drag_handler_fields p e.1 e.2
      rw [hrw]
      rw [h1, h2, h3, h4, h5, h6, h7, h8, h9, d1, d2, d3, d4, d5, d6, d7, d8, d9, d10, d11]
      refine ⟨?_, ?_, rfl, rfl, rfl, rfl, rfl, rfl, rfl⟩
      · rw [List.getLastD_cons]
        ring
      · rw [List.getLastD_cons]
        ring

/-- Claim C9: for every drag gesture (pointer-down at (px, py), any motion
sequence ending at (qx, qy), then pointer-up) with nonzero scales, the
release handler commits the accumulated device delta (dx, dy) =
(qx - px, qy - py) by adding dx / xscale to xoffset and subtracting
dy / yscale from yoffset, so the subsequent redraw places every user point at
its pre-drag device position translated by exactly (dx, dy). -/
theorem drag_release_commit (p : Plot) (px py : ℚ) (ms : List (ℚ × ℚ))
    (hx : p.xscale ≠ 0) (hy : p.yscale ≠ 0) :
    ∃ pf, ((p.click_handler px py).dragAll ms).release_handler = some pf ∧
      pf.xoffset = p.xoffset + ((ms.getLastD (px, py)).1 - px) / p.xscale ∧
      pf.yoffset = p.yoffset - ((ms.getLastD (px, py)).2 - py) / p.yscale ∧
      (∀ u, pf.deviceX u = p.deviceX u + ((ms.getLastD (px, py)).1 - px)) ∧
      (∀ v, pf.deviceY v = p.deviceY v + ((ms.getLastD (px, py)).2 - py)) := by
  obtain ⟨h1, h2, h3, h4, h5, h6, h7, h8, h9⟩ := dragAll_fields ms (p.click_handler px py)
  have c1 : (p.click_handler px py).delta_x = 0 := rfl
  have c2 : (p.click_handler px py).delta_y = 0 := rfl
  have c3 : (p.click_handler px py).move_x = px := rfl
  have c4 : (p.click_handler px py).move_y = py := rfl
  have c5 : (p.click_handler px py).xoffset = p.xoffset := rfl
  have c6 : (p.click_handler px py).yoffset = p.yoffset := rfl
  have c7 : (p.click_handler px py).xscale = p.xscale := rfl
  have c8 : (p.click_handler px py).yscale = p.yscale := rfl
  have c9 : (p.click_handler px py).width = p.width := rfl
  have c10 : (p.click_handler px py).height = p.height := rfl
  have c11 : (p.click_handler px py).border = p.border := rfl
  rw [c1, c3, c4] at h1
  rw [c2, c3, c4] at h2
  rw [c5] at h3
  rw [c6] at h4
  rw [c7] at h5
  rw [c8] at h6
  rw [c9] at h7
  rw [c10] at h8
  rw [c11] at h9
  set q := (p.click_handler px py).dragAll ms with hq
  have hd1 : q.delta_x = (ms.getLastD (px, py)).1 - px := by rw [h1]; ring
  have hd2 : q.delta_y = (ms.getLastD (px, py)).2 - py := by rw [h2]; ring
  refine ⟨{ q with xoffset := q.xoffset + q.delta_x / q.xscale,
                   yoffset := q.yoffset - q.delta_y / q.yscale }, ?_, ?_, ?_, ?_, ?_⟩
  · have hnex : q.xscale ≠ 0 := by rw [h5]; exact hx
    have hney : q.yscale ≠ 0 := by rw [h6]; exact hy
    simp [Plot.release_handler, qdiv, hnex, hney]
  · show q.xoffset + q.delta_x / q.xscale = p.xoffset + ((ms.getLastD (px, py)).1 - px) / p.xscale
    rw [h3, h5, hd1]
  · show q.yoffset - q.delta_y / q.yscale = p.yoffset - ((ms.getLastD (px, py)).2 - py) / p.yscale
    rw [h4, h6, hd2]
  · intro u
    show q.border + (u + (q.xoffset + q.delta_x / q.xscale)) * q.xscale =
      p.deviceX u + ((ms.getLastD (px, py)).1 - px)
    rw [h9, h3, h5, hd1, Plot.deviceX, mapX]
    field_simp
    ring
  · intro v
    show q.height - q.border - (v + (q.yoffset - q.delta_y / q.yscale)) * q.yscale =
      p.deviceY v + ((ms.getLastD (px, py)).2 - py)
    rw [h8, h9, h4, h6, hd2, Plot.deviceY, mapY]
    field_simp
    ring

/-- Witness for the C9 theorem: a two-motion drag from (0, 0) to (3, 4) on
the default plot. -/
theorem drag_release_commit_witness :
    samplePlot.xscale ≠ 0 ∧ samplePlot.yscale ≠ 0 ∧
    (∃ pf, ((samplePlot.click_handler 0 0).dragAll [(1, 2), (3, 4)]).release_handler = some pf ∧
      pf.xoffset = samplePlot.xoffset +
        (([(1, 2), (3, 4)].getLastD ((0 : ℚ), (0 : ℚ))).1 - 0) / samplePlot.xscale ∧
      pf.yoffset = samplePlot.yoffset -
        (([(1, 2), (3, 4)].getLastD ((0 : ℚ), (0 : ℚ))).2 - 0) / samplePlot.yscale ∧
      (∀ u, pf.deviceX u = samplePlot.deviceX u +
        (([(1, 2), (3, 4)].getLastD ((0 : ℚ), (0 : ℚ))).1 - 0)) ∧
      (∀ v, pf.deviceY v = samplePlot.deviceY v +
        (([(1, 2), (3, 4)].getLastD ((0 : ℚ), (0 : ℚ))).2 - 0))) :=
  ⟨by norm_num [samplePlot], by norm_num [samplePlot],
   drag_release_commit samplePlot 0 0 [(1, 2), (3, 4)]
     (by norm_num [samplePlot]) (by norm_num [samplePlot])⟩

/-- Folding add over a shape list appends the shapes to the object list, in
order, and changes nothing else. -/
theorem foldl_add_objects : ∀ (shapes : List Shape) (p : Plot),
    shapes.foldl Plot.add p = { p with objects := p.objects ++ shapes }
  | [], p => by simp
  | s :: rest, p => by
      rw [List.foldl_cons, foldl_add_objects rest (p.add s)]
      simp [Plot.add]

/-- A well-formed shape renders under every transform. -/
theorem draw_isSome_of_drawOk (s : Shape) (h : drawOk s = true) (x0 y0 sx sy ox oy : ℚ) :
    (Shape.draw s x0 y0 sx sy ox oy).isSome = true := by
  cases s with
  | line pts =>
      have he : pts.length % 2 = 0 := by simpa [drawOk] using h
      obtain ⟨ps, hps⟩ := Option.isSome_iff_exists.mp (chunkPairs_isSome_of_even pts he)
      simp [Shape.draw, hps]
  | polygon pts =>
      have he : pts.length % 2 = 0 := by simpa [drawOk] using h
      obtain ⟨ps, hps⟩ := Option.isSome_iff_exists.mp (chunkPairs_isSome_of_even pts he)
      simp [Shape.draw, hps]
  | circle cx cy radius squish => rfl
  | mark px py size => rfl
  | arc cx cy radius squish => rfl
  | label x y t => rfl

/-- Counterexample to claim C4 as stated: clear() followed by add() of one
shape (a Line with an odd coordinate count) makes the next render pass abort
with a ValueError, issuing zero primitive draw calls rather than exactly
one. -/
theorem render_count_counterexample :
    Plot.draw (Plot.add (Plot.clear samplePlot) (Shape.line [0])) = none := rfl

/-- Claim C4 amended: for every N and every sequence of N well-formed shapes
(every Line and Polygon having an even coordinate count), calling clear()
and then add() for each shape makes the next render pass issue exactly N
primitive draw calls, one per shape, in the order the shapes were added. -/
theorem render_count_wellformed (p : Plot) (shapes : List Shape)
    (h : ∀ s ∈ shapes, drawOk s = true) :
    ∃ prims, Plot.draw (shapes.foldl Plot.add (Plot.clear p)) = some prims ∧
      prims.length = shapes.length ∧
      ∀ (i : ℕ) (s : Shape), shapes[i]? = some s → ∃ pr, prims[i]? = some pr ∧
        Shape.draw s p.border (p.height - p.border) p.xscale p.yscale p.xoffset p.yoffset
          = some pr := by
  have hfold : shapes.foldl Plot.add (Plot.clear p) = { p with objects := shapes } := by
    rw [foldl_add_objects shapes (Plot.clear p)]
    simp [Plot.clear]
  rw [hfold]
  obtain ⟨prims, hp, hlen⟩ := mapMopt_some
    (fun s => Shape.draw s p.border (p.height - p.border) p.xscale p.yscale p.xoffset p.yoffset)
    shapes
    (fun s hs => draw_isSome_of_drawOk s (h s hs) p.border (p.height - p.border)
      p.xscale p.yscale p.xoffset p.yoffset)
  exact ⟨prims, hp, hlen, fun i s hsi => mapMopt_get? _ shapes prims hp i s hsi⟩

/-- Witness for the amended C4 theorem: two well-formed shapes on the default
plot. -/
theorem render_count_wellformed_witness :
    (∀ s ∈ [Shape.line [0, 0, 1, 1], Shape.mark 2 3 4], drawOk s = true) ∧
    (∃ prims,
      Plot.draw ([Shape.line [0, 0, 1, 1], Shape.mark 2 3 4].foldl Plot.add
        (Plot.clear samplePlot)) = some prims ∧
      prims.length = [Shape.line [0, 0, 1, 1], Shape.mark 2 3 4].length ∧
      ∀ (i : ℕ) (s : Shape), [Shape.line [0, 0, 1, 1], Shape.mark 2 3 4][i]? = some s →
        ∃ pr, prims[i]? = some pr ∧
          Shape.draw s samplePlot.border (samplePlot.height - samplePlot.border)
            samplePlot.xscale samplePlot.yscale samplePlot.xoffset samplePlot.yoffset
            = some pr) :=
  ⟨by decide, render_count_wellformed samplePlot [Shape.line [0, 0, 1, 1], Shape.mark 2 3 4]
    (by decide)⟩

/-- Counterexample to claim C8 as stated: on the default plot (the user point
(280, 280) is mapped to the window centre (300, 300)), a button-1 double
click at (0, 0) followed by a button-2 double click at the same point leaves
the point 280 mapped to device 750, not back to the centre 300: repeating the
zoom-out double click at the same screen position does not return the view to
the original centre. -/
theorem double_click_same_point_counterexample :
    Plot.deviceX samplePlot 280 = samplePlot.width / 2 ∧
    Plot.deviceY samplePlot 280 = samplePlot.height / 2 ∧
    (((Plot.double_click_handler samplePlot 0 0 1).bind
        fun q => Plot.double_click_handler q 0 0 2).map fun q => q.deviceX 280) = some 750 ∧
    (((Plot.double_click_handler samplePlot 0 0 1).bind
        fun q => Plot.double_click_handler q 0 0 2).map fun q => q.deviceY 280) = some 750 ∧
    (750 : ℚ) ≠ samplePlot.width / 2 ∧ (750 : ℚ) ≠ samplePlot.height / 2 := by
  refine ⟨?_, ?_, ?_, ?_, ?_, ?_⟩
  · norm_num [Plot.deviceX, mapX, samplePlot]
  · norm_num [Plot.deviceY, mapY, samplePlot]
  · norm_num [Plot.double_click_handler, Plot.zoom_plus, Plot.zoom_minus, qdiv,
      samplePlot, Plot.deviceX, mapX]
  · norm_num [Plot.double_click_handler, Plot.zoom_plus, Plot.zoom_minus, qdiv,
      samplePlot, Plot.deviceY, mapY]
  · norm_num [samplePlot]
  · norm_num [samplePlot]

/-- Claim C8 amended: with nonzero scales, a button-1 double click at (px, py)
recentres on the click point and zooms in; the view returns to the original
centre when the button-2 double click is made at the device point
(3 width / 2 - 2 px, 3 height / 2 - 2 py) — the position at which the
originally-centred user point lies after the first double click.  The round
trip then restores the entire transform (both scales and both offsets)
exactly, so the user-space point mapped to the window centre afterwards
equals the one mapped there originally.  With both double clicks at the same
arbitrary point the original centre is in general not restored. -/
theorem double_click_reflected_roundtrip (p : Plot) (ex ey : ℚ)
    (hx : p.xscale ≠ 0) (hy : p.yscale ≠ 0) :
    ∃ p1 p2, Plot.double_click_handler p ex ey 1 = some p1 ∧
      Plot.double_click_handler p1 (3 * p.width / 2 - 2 * ex) (3 * p.height / 2 - 2 * ey) 2
        = some p2 ∧
      p2.xscale = p.xscale ∧ p2.yscale = p.yscale ∧
      p2.xoffset = p.xoffset ∧ p2.yoffset = p.yoffset ∧
      (∀ u, p2.deviceX u = p.deviceX u) ∧ (∀ v, p2.deviceY v = p.deviceY v) := by
  refine ⟨{ p with xscale := p.xscale * 2, yscale := p.yscale * 2,
                   xoffset := p.xoffset + (p.width / 2 - ex) / p.xscale
                     - (p.width - 2 * p.border) / (2 * (p.xscale * 2)),
                   yoffset := p.yoffset + (ey - p.height / 2) / p.yscale
                     - (p.height - 2 * p.border) / (2 * (p.yscale * 2)) },
    { p with xscale := p.xscale * 2 / 2, yscale := p.yscale * 2 / 2,
             xoffset := p.xoffset + (p.width / 2 - ex) / p.xscale
               - (p.width - 2 * p.border) / (2 * (p.xscale * 2))
               + (p.width / 2 - (3 * p.width / 2 - 2 * ex)) / (p.xscale * 2)
               + (p.width - 2 * p.border) / (2 * (p.xscale * 2)),
             yoffset := p.yoffset + (ey - p.height / 2) / p.yscale
               - (p.height - 2 * p.border) / (2 * (p.yscale * 2))
               + (3 * p.height / 2 - 2 * ey - p.height / 2) / (p.yscale * 2)
               + (p.height - 2 * p.border) / (2 * (p.yscale * 2)) },
    ?_, ?_, ?_, ?_, ?_, ?_, ?_, ?_⟩
  · simp [Plot.double_click_handler, Plot.zoom_plus, qdiv, hx, hy]
  · simp [Plot.double_click_handler, Plot.zoom_minus, qdiv, hx, hy]
  · show p.xscale * 2 / 2 = p.xscale
    ring
  · show p.yscale * 2 / 2 = p.yscale
    ring
  · show p.xoffset + (p.width / 2 - ex) / p.xscale
        - (p.width - 2 * p.border) / (2 * (p.xscale * 2))
        + (p.width / 2 - (3 * p.width / 2 - 2 * ex)) / (p.xscale * 2)
        + (p.width - 2 * p.border) / (2 * (p.xscale * 2)) = p.xoffset
    field_simp
    ring
  · show p.yoffset + (ey - p.height / 2) / p.yscale
        - (p.height - 2 * p.border) / (2 * (p.yscale * 2))
        + (3 * p.height / 2 - 2 * ey - p.height / 2) / (p.yscale * 2)
        + (p.height - 2 * p.border) / (2 * (p.yscale * 2)) = p.yoffset
    field_simp
    ring
  · intro u
    simp only [Plot.deviceX, mapX]
    field_simp
    ring
  · intro v
    simp only [Plot.deviceY, mapY]
    field_simp
    ring

/-- Witness for the amended C8 theorem at the default plot, clicking at
(100, 200). -/
theorem double_click_reflected_roundtrip_witness :
    samplePlot.xscale ≠ 0 ∧ samplePlot.yscale ≠ 0 ∧
    (∃ p1 p2, Plot.double_click_handler samplePlot 100 200 1 = some p1 ∧
      Plot.double_click_handler p1 (3 * samplePlot.width / 2 - 2 * 100)
        (3 * samplePlot.height / 2 - 2 * 200) 2 = some p2 ∧
      p2.xscale = samplePlot.xscale ∧ p2.yscale = samplePlot.yscale ∧
      p2.xoffset = samplePlot.xoffset ∧ p2.yoffset = samplePlot.yoffset ∧
      (∀ u, p2.deviceX u = samplePlot.deviceX u) ∧
      (∀ v, p2.deviceY v = samplePlot.deviceY v)) :=
  ⟨by norm_num [samplePlot], by norm_num [samplePlot],
   double_click_reflected_roundtrip samplePlot 100 200
     (by norm_num [samplePlot]) (by norm_num [samplePlot])⟩

/-- A label list with a single entry makes the x-label loop of graph_axes
divide by zero (n = len - 1 = 0). -/
theorem xlabelShapes_single_none (xmin xmax ymin yscale : ℚ) (t : String) :
    xlabelShapes xmin xmax ymin yscale (some [t]) = none := by
  norm_num [xlabelShapes, mapMopt, qdiv, List.enum, List.enumFrom]

/-- A label list with a single entry makes the y-label loop of graph_axes
divide by zero. -/
theorem ylabelShapes_single_none (xmin ymin ymax xscale : ℚ) (t : String) :
    ylabelShapes xmin ymin ymax xscale (some [t]) = none := by
  norm_num [ylabelShapes, mapMopt, qdiv, List.enum, List.enumFrom]

/-- With a nonzero y scale, every x-label list of length at least 2 produces
its labels: one per entry, each a Label shape at the spacing formula of
graph_axes. -/
theorem xlabelShapes_eq (xmin xmax ymin yscale : ℚ) (hsy : yscale ≠ 0)
    (ls : List String) (hls : 2 ≤ ls.length) :
    xlabelShapes xmin xmax ymin yscale (some ls) =
      some (ls.enum.map fun it =>
        Shape.label (xmin + (xmax - xmin) * (it.1 : ℚ) / ((ls.length : ℚ) - 1))
          (ymin - 10 / yscale) it.2) := by
  have hne : ls.isEmpty = false := by
    cases ls with
    | nil => simp at hls
    | cons a l => rfl
  have hn : ((ls.length : ℚ) - 1) ≠ 0 := by
    have h2 : (2 : ℚ) ≤ (ls.length : ℚ) := by exact_mod_cast hls
    intro h0
    rw [sub_eq_zero] at h0
    rw [h0] at h2
    norm_num at h2
  rw [xlabelShapes, hne]
  simp only [Bool.false_eq_true, if_false]
  exact mapMopt_eq_map _ _ ls.enum (fun it _ => by simp [qdiv, hn, hsy])

/-- With a nonzero x scale, every y-label list of length at least 2 produces
its labels. -/
theorem ylabelShapes_eq (xmin ymin ymax xscale : ℚ) (hsx : xscale ≠ 0)
    (ls : List String) (hls : 2 ≤ ls.length) :
    ylabelShapes xmin ymin ymax xscale (some ls) =
      some (ls.enum.map fun it =>
        Shape.label (xmin - 10 / xscale)
          (ymin + (ymax - ymin) * (it.1 : ℚ) / ((ls.length : ℚ) - 1)) it.2) := by
  have hne : ls.isEmpty = false := by
    cases ls with
    | nil => simp at hls
    | cons a l => rfl
  have hn : ((ls.length : ℚ) - 1) ≠ 0 := by
    have h2 : (2 : ℚ) ≤ (ls.length : ℚ) := by exact_mod_cast hls
    intro h0
    rw [sub_eq_zero] at h0
    rw [h0] at h2
    norm_num at h2
  rw [ylabelShapes, hne]
  simp only [Bool.false_eq_true, if_false]
  exact mapMopt_eq_map _ _ ls.enum (fun it _ => by simp [qdiv, hn, hsx])

/-- Claim C6: for every xaxis tick array of length M at least 2 and yaxis
tick array of length N at least 2, graph_axes appends exactly M vertical
grid-line shapes (one per x tick, with equal x coordinates) and N horizontal
grid-line shapes, and appends label shapes only when label arrays are
supplied: with no label arrays the appended shapes are exactly the M + N grid
lines, and with xlabels and ylabels supplied the appended shapes are the
M + N grid lines followed by one Label shape per entry of each array. -/
theorem graph_axes_shapes (p : Plot) (xaxis yaxis : List ℚ) (tick : ℚ) (xtick ytick : Option ℚ)
    (x0 x1v xl y0v y1v yl : ℚ)
    (hx0 : xaxis.head? = some x0) (hx1 : xaxis[1]? = some x1v)
    (hxl : xaxis.getLast? = some xl)
    (hy0 : yaxis.head? = some y0v) (hy1 : yaxis[1]? = some y1v)
    (hyl : yaxis.getLast? = some yl)
    (xs ys : List String) (hxs : 2 ≤ xs.length) (hys : 2 ≤ ys.length)
    (hsx : p.xscale ≠ 0) (hsy : p.yscale ≠ 0) :
    (Plot.graph_axes p xaxis yaxis none none none none tick xtick ytick =
      some { p with objects := p.objects
        ++ xaxis.map (fun i => Shape.line [i, y0v - (x1v - x0) * orD xtick tick, i, yl])
        ++ yaxis.map (fun i => Shape.line [x0 - (y1v - y0v) * orD ytick tick, i, xl, i]) })
    ∧ (∃ L1 L2,
        Plot.graph_axes p xaxis yaxis (some xs) (some ys) none none tick xtick ytick =
          some { p with objects := p.objects
            ++ xaxis.map (fun i => Shape.line [i, y0v - (x1v - x0) * orD xtick tick, i, yl])
            ++ yaxis.map (fun i => Shape.line [x0 - (y1v - y0v) * orD ytick tick, i, xl, i])
            ++ L1 ++ L2 } ∧
        L1.length = xs.length ∧ L2.length = ys.length ∧
        (∀ s ∈ L1, ∃ a b t, s = Shape.label a b t) ∧
        (∀ s ∈ L2, ∃ a b t, s = Shape.label a b t)) := by
  constructor
  · simp [Plot.graph_axes, hx0, hx1, hxl, hy0, hy1, hyl,
      xlabelShapes, ylabelShapes, xtextShapes, ytextShapes]
  · refine ⟨xs.enum.map fun it =>
        Shape.label (x0 + (xl - x0) * (it.1 : ℚ) / ((xs.length : ℚ) - 1))
          (y0v - 10 / p.yscale) it.2,
      ys.enum.map fun it =>
        Shape.label (x0 - 10 / p.xscale)
          (y0v + (yl - y0v) * (it.1 : ℚ) / ((ys.length : ℚ) - 1)) it.2,
      ?_, ?_, ?_, ?_, ?_⟩
    · simp [Plot.graph_axes, hx0, hx1, hxl, hy0, hy1, hyl,
        xlabelShapes_eq x0 xl y0v p.yscale hsy xs hxs,
        ylabelShapes_eq x0 y0v yl p.xscale hsx ys hys,
        xtextShapes, ytextShapes]
    · simp
    · simp
    · intro s hs
      simp only [List.mem_map] at hs
      obtain ⟨it, _, rfl⟩ := hs
      exact ⟨_, _, _, rfl⟩
    · intro s hs
      simp only [List.mem_map] at hs
      obtain ⟨it, _, rfl⟩ := hs
      exact ⟨_, _, _, rfl⟩

/-- Witness for the C6 theorem on concrete two-tick axes and two-label
arrays. -/
theorem graph_axes_shapes_witness :
    ([(0 : ℚ), 1] : List ℚ).head? = some 0 ∧ ([(0 : ℚ), 1] : List ℚ)[1]? = some 1 ∧
    ([(0 : ℚ), 1] : List ℚ).getLast? = some 1 ∧
    ([(0 : ℚ), 2] : List ℚ).head? = some 0 ∧ ([(0 : ℚ), 2] : List ℚ)[1]? = some 2 ∧
    ([(0 : ℚ), 2] : List ℚ).getLast? = some 2 ∧
    2 ≤ (["a", "b"] : List String).length ∧ 2 ≤ (["c", "d"] : List String).length ∧
    samplePlot.xscale ≠ 0 ∧ samplePlot.yscale ≠ 0 ∧
    ((Plot.graph_axes samplePlot [0, 1] [0, 2] none none none none (1/5) none none =
      some { samplePlot with objects := samplePlot.objects
        ++ ([(0 : ℚ), 1] : List ℚ).map (fun i => Shape.line [i, 0 - (1 - 0) * orD none (1/5), i, 2])
        ++ ([(0 : ℚ), 2] : List ℚ).map (fun i => Shape.line [0 - (2 - 0) * orD none (1/5), i, 1, i]) })
    ∧ (∃ L1 L2,
        Plot.graph_axes samplePlot [0, 1] [0, 2] (some ["a", "b"]) (some ["c", "d"])
            none none (1/5) none none =
          some { samplePlot with objects := samplePlot.objects
            ++ ([(0 : ℚ), 1] : List ℚ).map (fun i => Shape.line [i, 0 - (1 - 0) * orD none (1/5), i, 2])
            ++ ([(0 : ℚ), 2] : List ℚ).map (fun i => Shape.line [0 - (2 - 0) * orD none (1/5), i, 1, i])
            ++ L1 ++ L2 } ∧
        L1.length = (["a", "b"] : List String).length ∧
        L2.length = (["c", "d"] : List String).length ∧
        (∀ s ∈ L1, ∃ a b t, s = Shape.label a b t) ∧
        (∀ s ∈ L2, ∃ a b t, s = Shape.label a b t))) :=
  ⟨rfl, rfl, rfl, rfl, rfl, rfl, by decide, by decide,
   by norm_num [samplePlot], by norm_num [samplePlot],
   graph_axes_shapes samplePlot [0, 1] [0, 2] (1/5) none none 0 1 1 0 2 2
     rfl rfl rfl rfl rfl rfl ["a", "b"] ["c", "d"] (by decide) (by decide)
     (by norm_num [samplePlot]) (by norm_num [samplePlot])⟩

/-- Binding a constant failure behind any option fails. -/
theorem bind_const_none {α β : Type} (o : Option α) :
    (o.bind fun _ => (none : Option β)) = none := by
  cases o <;> rfl

/-- A nonempty list has a last element. -/
theorem getLast?_cons_isSome {α : Type} (a : α) (l : List α) :
    ∃ x, (a :: l).getLast? = some x := by
  induction l generalizing a with
  | nil => exact ⟨a, rfl⟩
  | cons b t ih =>
      obtain ⟨x, hx⟩ := ih b
      exact ⟨x, by rw [List.getLast?_cons_cons]; exact hx⟩

/-- With a nonzero y scale, the x-label loop succeeds for an absent label
array and for any supplied label array of length at least 2. -/
theorem xlabelShapes_isSome (xmin xmax ymin yscale : ℚ) (hsy : yscale ≠ 0) :
    ∀ xlabels : Option (List String), (∀ ls, xlabels = some ls → 2 ≤ ls.length) →
      (xlabelShapes xmin xmax ymin yscale xlabels).isSome = true
  | none, _ => rfl
  | some ls, h => by
      rw [xlabelShapes_eq xmin xmax ymin yscale hsy ls (h ls rfl)]
      rfl

/-- With a nonzero x scale, the y-label loop succeeds for an absent label
array and for any supplied label array of length at least 2. -/
theorem ylabelShapes_isSome (xmin ymin ymax xscale : ℚ) (hsx : xscale ≠ 0) :
    ∀ ylabels : Option (List String), (∀ ls, ylabels = some ls → 2 ≤ ls.length) →
      (ylabelShapes xmin ymin ymax xscale ylabels).isSome = true
  | none, _ => rfl
  | some ls, h => by
      rw [ylabelShapes_eq xmin ymin ymax xscale hsx ls (h ls rfl)]
      rfl

/-- With a nonzero y scale, the x-axis text branch always succeeds. -/
theorem xtextShapes_isSome (xmin ymin yscale : ℚ) (hsy : yscale ≠ 0) :
    ∀ xtext : Option String, (xtextShapes xmin ymin yscale xtext).isSome = true
  | none => rfl
  | some t => by
      simp only [xtextShapes]
      split <;> simp [qdiv, hsy]

/-- With a nonzero x scale, the y-axis text branch always succeeds. -/
theorem ytextShapes_isSome (xmin ymin xscale : ℚ) (hsx : xscale ≠ 0) :
    ∀ ytext : Option String, (ytextShapes xmin ymin xscale ytext).isSome = true
  | none => rfl
  | some t => by
      simp only [ytextShapes]
      split <;> simp [qdiv, hsx]

/-- Counterexample to claim C10 as stated: its precondition (both tick arrays
of length at least 2, every supplied label array of length at least 2) does
not make every error branch unreachable.  With a zero y scale — which the
plot accepts, since no bounds checking is done on scales — the x-label
placement divides 10 by yscale and raises ZeroDivisionError. -/
theorem graph_axes_zero_scale_counterexample :
    2 ≤ ([(0 : ℚ), 1] : List ℚ).length ∧ 2 ≤ (["a", "b"] : List String).length ∧
    Plot.graph_axes { samplePlot with yscale := 0 } [0, 1] [0, 1]
      (some ["a", "b"]) none none none (1/5) none none = none := by
  refine ⟨by decide, by decide, ?_⟩
  norm_num [Plot.graph_axes, xlabelShapes, mapMopt, qdiv, samplePlot, List.enum, List.enumFrom]

/-- Claim C10 amended: graph_axes is partial at its public interface.  It
requires both tick arrays to have length at least 2 (it reads index 1 and the
first and last entries) and fails otherwise; when a supplied xlabels or
ylabels array has length exactly 1 it divides by zero; and under the
precondition that both tick arrays have length at least 2, any supplied label
array has length at least 2, and additionally both scales are nonzero (the
label and axis-text placement divides 10 and 50 by the scales), no error
branch is reachable. -/
theorem graph_axes_partiality :
    (∀ (p : Plot) (xaxis yaxis : List ℚ) (xlabels ylabels : Option (List String))
        (xtext ytext : Option String) (tick : ℚ) (xtick ytick : Option ℚ),
      xaxis.length < 2 ∨ yaxis.length < 2 →
      Plot.graph_axes p xaxis yaxis xlabels ylabels xtext ytext tick xtick ytick = none)
  ∧ (∀ (p : Plot) (xaxis yaxis : List ℚ) (ylabels : Option (List String))
        (xtext ytext : Option String) (tick : ℚ) (xtick ytick : Option ℚ) (t : String),
      2 ≤ xaxis.length → 2 ≤ yaxis.length →
      Plot.graph_axes p xaxis yaxis (some [t]) ylabels xtext ytext tick xtick ytick = none)
  ∧ (∀ (p : Plot) (xaxis yaxis : List ℚ)
        (xtext ytext : Option String) (tick : ℚ) (xtick ytick : Option ℚ) (t : String),
      2 ≤ xaxis.length → 2 ≤ yaxis.length →
      Plot.graph_axes p xaxis yaxis none (some [t]) xtext ytext tick xtick ytick = none)
  ∧ (∀ (p : Plot) (xaxis yaxis : List ℚ) (xlabels ylabels : Option (List String))
        (xtext ytext : Option String) (tick : ℚ) (xtick ytick : Option ℚ),
      2 ≤ xaxis.length → 2 ≤ yaxis.length →
      (∀ ls, xlabels = some ls → 2 ≤ ls.length) →
      (∀ ls, ylabels = some ls → 2 ≤ ls.length) →
      p.xscale ≠ 0 → p.yscale ≠ 0 →
      (Plot.graph_axes p xaxis yaxis xlabels ylabels xtext ytext tick xtick ytick).isSome
        = true) := by
  refine ⟨?_, ?_, ?_, ?_⟩
  · intro p xaxis yaxis xlabels ylabels xtext ytext tick xtick ytick h
    rcases h with h | h
    · rcases xaxis with _ | ⟨a, _ | ⟨b, tx⟩⟩
      · simp [Plot.graph_axes]
      · simp [Plot.graph_axes, bind_const_none]
      · exact absurd h (by simp only [List.length_cons]; omega)
    · rcases yaxis with _ | ⟨c, _ | ⟨d, ty⟩⟩
      · simp [Plot.graph_axes, bind_const_none]
      · simp [Plot.graph_axes, bind_const_none]
      · exact absurd h (by simp only [List.length_cons]; omega)
  · intro p xaxis yaxis ylabels xtext ytext tick xtick ytick t hlx hly
    rcases xaxis with _ | ⟨a, _ | ⟨b, tx⟩⟩
    · exact absurd hlx (by simp)
    · exact absurd hlx (by simp)
    · rcases yaxis with _ | ⟨c, _ | ⟨d, ty⟩⟩
      · exact absurd hly (by simp)
      · exact absurd hly (by simp)
      · obtain ⟨xm, hxm⟩ := getLast?_cons_isSome a (b :: tx)
        obtain ⟨ym, hym⟩ := getLast?_cons_isSome c (d :: ty)
        simp [Plot.graph_axes, hxm, hym, xlabelShapes_single_none, bind_const_none]
  · intro p xaxis yaxis xtext ytext tick xtick ytick t hlx hly
    rcases xaxis with _ | ⟨a, _ | ⟨b, tx⟩⟩
    · exact absurd hlx (by simp)
    · exact absurd hlx (by simp)
    · rcases yaxis with _ | ⟨c, _ | ⟨d, ty⟩⟩
      · exact absurd hly (by simp)
      · exact absurd hly (by simp)
      · obtain ⟨xm, hxm⟩ := getLast?_cons_isSome a (b :: tx)
        obtain ⟨ym, hym⟩ := getLast?_cons_isSome c (d :: ty)
        simp [Plot.graph_axes, hxm, hym, xlabelShapes, ylabelShapes_single_none,
          bind_const_none]
  · intro p xaxis yaxis xlabels ylabels xtext ytext tick xtick ytick hlx hly hxl2 hyl2 hsx hsy
    rcases xaxis with _ | ⟨a, _ | ⟨b, tx⟩⟩
    · exact absurd hlx (by simp)
    · exact absurd hlx (by simp)
    · rcases yaxis with _ | ⟨c, _ | ⟨d, ty⟩⟩
      · exact absurd hly (by simp)
      · exact absurd hly (by simp)
      · obtain ⟨xm, hxm⟩ := getLast?_cons_isSome a (b :: tx)
        obtain ⟨ym, hym⟩ := getLast?_cons_isSome c (d :: ty)
        obtain ⟨xls, hxls⟩ := Option.isSome_iff_exists.mp
          (xlabelShapes_isSome a xm c p.yscale hsy xlabels hxl2)
        obtain ⟨yls, hyls⟩ := Option.isSome_iff_exists.mp
          (ylabelShapes_isSome a c ym p.xscale hsx ylabels hyl2)
        obtain ⟨xts, hxts⟩ := Option.isSome_iff_exists.mp
          (xtextShapes_isSome a c p.yscale hsy xtext)
        obtain ⟨yts, hyts⟩ := Option.isSome_iff_exists.mp
          (ytextShapes_isSome a c p.xscale hsx ytext)
        simp [Plot.graph_axes, hxm, hym, hxls, hyls, hxts, hyts]

/-- Witness for the amended C10 theorem: the no-error part at concrete valid
input. -/
theorem graph_axes_partiality_witness :
    2 ≤ ([(0 : ℚ), 1] : List ℚ).length ∧ 2 ≤ ([(0 : ℚ), 2] : List ℚ).length ∧
    samplePlot.xscale ≠ 0 ∧ samplePlot.yscale ≠ 0 ∧
    (Plot.graph_axes samplePlot [0, 1] [0, 2] (some ["a", "b"]) (some ["c", "d"])
      none none (1/5) none none).isSome = true :=
  ⟨by decide, by decide, by norm_num [samplePlot], by norm_num [samplePlot],
   graph_axes_partiality.2.2.2 samplePlot [0, 1] [0, 2] (some ["a", "b"]) (some ["c", "d"])
     none none (1/5) none none (by decide) (by decide)
     (fun ls hls => by injection hls with h; subst h; decide)
     (fun ls hls => by injection hls with h; subst h; decide)
     (by norm_num [samplePlot]) (by norm_num [samplePlot])⟩

end PyPlot
